import Mathlib

/-!
# Verification of the MLflow run-mirroring plugin

Shallow embedding of `__init__.py` of the `fiftyone_mlflow_plugin`
repository.  The plugin mirrors MLflow experiment/run metadata into a
FiftyOne dataset's custom-run registry.

The plugin's own code is embedded function by function
(`_format_run_name`, `_initialize_fiftyone_run_for_mlflow_experiment`,
`_fiftyone_experiment_run_exists`, `_add_fiftyone_run_for_mlflow_run`,
`log_mlflow_run_to_fiftyone_dataset`, `get_candidate_experiments`).
The two external collaborators — the FiftyOne dataset's run registry and
the MLflow tracking service — are not part of the repository; their
behaviour is modelled from the spec's description of them (§4.3, §6).

Python exceptions are modelled by an `Outcome`/`Except` value; because the
Python code mutates the registry in place, a raised error carries the
registry state at the moment of the raise, so that theorems can speak
about which writes had already happened when an operation failed.
-/

namespace MlflowPlugin

/-- MLflow metric values are copied verbatim by the plugin and never
inspected, so their carrier is opaque to this code; we fix an integer
carrier for decidability. -/
abbrev MetricVal := Int

/-- Modelled from the spec: the tracking service's experiment object
(`get_experiment_by_name -> experiment{artifact_location, creation_time,
experiment_id, tags}`, §6). -/
structure MlflowExperiment where
  artifact_location : String
  creation_time : Int
  experiment_id : String
  tags : List (String × String)
deriving DecidableEq, Repr

/-- Modelled from the spec: the `info` part of the tracking service's run
object (§6). -/
structure MlflowRunInfo where
  run_uuid : String
  experiment_id : String
  artifact_uri : String
deriving DecidableEq, Repr

/-- Modelled from the spec: the `data` part of the tracking service's run
object (§6): a tag dictionary and a metric dictionary. -/
structure MlflowRunData where
  tags : List (String × String)
  metrics : List (String × MetricVal)
deriving DecidableEq, Repr

/-- Modelled from the spec: the tracking service's run object (§6). -/
structure MlflowRun where
  info : MlflowRunInfo
  data : MlflowRunData
deriving DecidableEq, Repr

/-- Modelled from the spec: the state of the MLflow tracking service, an
external collaborator reached through `mlflow.get_experiment_by_name` and
`mlflow.get_run` (§6). -/
structure Tracking where
  experimentsByName : List (String × MlflowExperiment)
  runsById : List (String × MlflowRun)
deriving DecidableEq, Repr

/-- Modelled from the spec: `mlflow.get_experiment_by_name`; yields
nothing when the service has no experiment of that name (§4.2's not-found
condition). -/
def Tracking.get_experiment_by_name (t : Tracking) (name : String) :
    Option MlflowExperiment :=
  (t.experimentsByName.find? (fun p => p.1 = name)).map Prod.snd

/-- Modelled from the spec: `mlflow.get_run`; yields nothing when the
service knows no run with this id (§4.3's not-found condition). -/
def Tracking.get_run (t : Tracking) (run_id : String) : Option MlflowRun :=
  (t.runsById.find? (fun p => p.1 = run_id)).map Prod.snd

/-- Python dictionary indexing `tags["key"]`: the value when the key is
present, nothing (a `KeyError`) otherwise. -/
def lookupTag (tags : List (String × String)) (key : String) : Option String :=
  (tags.find? (fun p => p.1 = key)).map Prod.snd

/-- A registry config object: a dynamic attribute bag (spec §6 "Config
objects support arbitrary named attribute read/write").  Each attribute
the plugin ever writes is a field; `none` models an attribute that was
never set, whose read raises `AttributeError` in Python. -/
structure RunConfig where
  method : Option String
  artifact_location : Option String
  created_at : Option Int
  experiment_name : Option String
  experiment_id : Option String
  tracking_uri : Option String
  tags : Option (List (String × String))
  runs : Option (List String)
  run_name : Option String
  run_id : Option String
  run_uuid : Option String
  artifact_uri : Option String
  metrics : Option (List (String × MetricVal))
deriving DecidableEq, Repr

/-- Modelled from the spec: the per-dataset custom-run registry, a
key/value store of named config records (§6, glossary).  Kept as an
association list in insertion order. -/
structure Dataset where
  name : String
  runs : List (String × RunConfig)
deriving DecidableEq, Repr

/-- A FiftyOne sample collection; `log_mlflow_run_to_fiftyone_dataset`
resolves it to its underlying dataset via the `_dataset` attribute. -/
structure SampleCollection where
  _dataset : Dataset
deriving DecidableEq, Repr

/-- Modelled from the spec: `dataset.init_run()` produces a fresh, empty
config object (§6). -/
def Dataset.init_run (_ : Dataset) : RunConfig :=
  ⟨none, none, none, none, none, none, none, none, none, none, none, none, none⟩

/-- Modelled from the spec: `dataset.list_runs()` lists the registry's
keys (§6). -/
def Dataset.list_runs (d : Dataset) : List String :=
  d.runs.map Prod.fst

/-- Modelled from the spec: `dataset.register_run(name, config)` writes
the record under the key; per §4.3 an existing record with that key is
unconditionally overwritten. -/
def Dataset.register_run (d : Dataset) (key : String) (cfg : RunConfig) :
    Dataset :=
  if d.runs.any (fun p => p.1 = key) then
    { d with runs := d.runs.map (fun p => if p.1 = key then (key, cfg) else p) }
  else
    { d with runs := d.runs ++ [(key, cfg)] }

/-- Modelled from the spec: `dataset.get_run_info(name).config` reads the
record stored under the key; absence of the key is the registry's
not-found error (§4.3: the parent lookup raises when the experiment
record is missing). -/
def Dataset.get_run_info (d : Dataset) (key : String) : Option RunConfig :=
  (d.runs.find? (fun p => p.1 = key)).map Prod.snd

/-- Modelled from the spec: `dataset.update_run_config(name, config)`
replaces the config stored under an existing key (§6). -/
def Dataset.update_run_config (d : Dataset) (key : String) (cfg : RunConfig) :
    Dataset :=
  { d with runs := d.runs.map (fun p => if p.1 = key then (key, cfg) else p) }

/-- The errors the plugin's operations can raise (spec §7 taxonomy):
not-found from the tracking service, a missing tag key, a registry
lookup miss, and a read of a config attribute that was never set. -/
inductive Err where
  | experimentNotFound (name : String)
  | runNotFound (id : String)
  | missingTag (key : String)
  | runInfoNotFound (name : String)
  | missingAttr (attr : String)
deriving DecidableEq, Repr

/-- Result of a registry-mutating operation.  Python mutates the dataset
in place, so an uncaught exception still leaves all writes performed so
far; `err` therefore carries the registry state at the raise. -/
inductive Outcome where
  | ok (d : Dataset)
  | err (e : Err) (d : Dataset)
deriving DecidableEq, Repr

instance {ε α : Type} [DecidableEq ε] [DecidableEq α] :
    DecidableEq (Except ε α) := fun a b =>
  match a, b with
  | .error e, .error e' =>
    if h : e = e' then .isTrue (by rw [h])
    else .isFalse (fun hc => by cases hc; exact h rfl)
  | .error _, .ok _ => .isFalse (fun hc => by cases hc)
  | .ok _, .error _ => .isFalse (fun hc => by cases hc)
  | .ok x, .ok y =>
    if h : x = y then .isTrue (by rw [h])
    else .isFalse (fun hc => by cases hc; exact h rfl)

/-- `_format_run_name(run_name)`: Python `run_name.replace("-", "_")`.
With a one-character pattern and replacement this is exactly the
character-wise substitution of `_` for `-`. -/
def _format_run_name (run_name : String) : String :=
  ⟨run_name.data.map (fun c => if c = '-' then '_' else c)⟩

/-- Line 29 of the source: `tracking_uri = tracking_uri or
"http://localhost:8080"`.  Python's `or` treats both `None` and the empty
string as falsy. -/
def resolve_tracking_uri (tracking_uri : Option String) : String :=
  match tracking_uri with
  | some s => if s = "" then "http://localhost:8080" else s
  | none => "http://localhost:8080"

/-- The experiment config built by
`_initialize_fiftyone_run_for_mlflow_experiment` (lines 31–40 of the
source), factored out so theorems can name it. -/
def _mlflow_experiment_config (dataset : Dataset) (experiment_name : String)
    (uri : String) (experiment : MlflowExperiment) : RunConfig :=
  { dataset.init_run with
    method := some "mlflow_experiment"
    artifact_location := some experiment.artifact_location
    created_at := some experiment.creation_time
    experiment_name := some experiment_name
    experiment_id := some experiment.experiment_id
    tracking_uri := some uri
    tags := some experiment.tags
    runs := some [] }

/-- `_initialize_fiftyone_run_for_mlflow_experiment(dataset,
experiment_name, tracking_uri=None)`.  In the source a missing experiment
surfaces as an error when the `None` returned by
`mlflow.get_experiment_by_name` has its fields read — before any registry
write; here the lookup itself reports the not-found error. -/
def _initialize_fiftyone_run_for_mlflow_experiment (t : Tracking)
    (dataset : Dataset) (experiment_name : String)
    (tracking_uri : Option String) : Outcome :=
  match t.get_experiment_by_name experiment_name with
  | none => .err (.experimentNotFound experiment_name) dataset
  | some experiment =>
    let uri := resolve_tracking_uri tracking_uri
    let config := _mlflow_experiment_config dataset experiment_name uri
      experiment
    .ok (dataset.register_run experiment_name config)

/-- `_fiftyone_experiment_run_exists(dataset, experiment_name)`:
`experiment_name in dataset.list_runs()`. -/
def _fiftyone_experiment_run_exists (dataset : Dataset)
    (experiment_name : String) : Bool :=
  dataset.list_runs.contains experiment_name

/-- The run config built by `_add_fiftyone_run_for_mlflow_run` (lines
59–67 of the source), factored out so theorems can name it. -/
def _mlflow_run_config (dataset : Dataset) (run_id : String)
    (run : MlflowRun) (run_name : String) : RunConfig :=
  { dataset.init_run with
    method := some "mlflow_run"
    run_name := some run_name
    run_id := some run_id
    run_uuid := some run.info.run_uuid
    experiment_id := some run.info.experiment_id
    artifact_uri := some run.info.artifact_uri
    metrics := some run.data.metrics
    tags := some run.data.tags }

/-- `_add_fiftyone_run_for_mlflow_run(dataset, experiment_name, run_id)`:
fetches the run, reads its `mlflow.runName` tag, registers a run record
under the normalized name, then appends the raw name to the parent
experiment record's `runs` and writes it back.  Each `match` arm's `err`
mirrors the Python exception raised at that point, carrying the registry
state already produced (the run-record write precedes the parent
lookup). -/
def _add_fiftyone_run_for_mlflow_run (t : Tracking) (dataset : Dataset)
    (experiment_name : String) (run_id : String) : Outcome :=
  match t.get_run run_id with
  | none => .err (.runNotFound run_id) dataset
  | some run =>
    match lookupTag run.data.tags "mlflow.runName" with
    | none => .err (.missingTag "mlflow.runName") dataset
    | some run_name =>
      let config := _mlflow_run_config dataset run_id run run_name
      let dataset := dataset.register_run (_format_run_name run_name) config
      match dataset.get_run_info experiment_name with
      | none => .err (.runInfoNotFound experiment_name) dataset
      | some experiment_config =>
        match experiment_config.runs with
        | none => .err (.missingAttr "runs") dataset
        | some rs =>
          .ok (dataset.update_run_config experiment_name
            { experiment_config with runs := some (rs ++ [run_name]) })

/-- The spec's `ensure_experiment_record` (§4.2): the presence guard and
the creation step.  In the source this composition appears inline in
`log_mlflow_run_to_fiftyone_dataset` (lines 90–93), there always with the
default `tracking_uri`; the guard is `_fiftyone_experiment_run_exists`
and the creation step `_initialize_fiftyone_run_for_mlflow_experiment`. -/
def ensure_experiment_record (t : Tracking) (dataset : Dataset)
    (experiment_name : String) (tracking_uri : Option String) : Outcome :=
  if !(_fiftyone_experiment_run_exists dataset experiment_name) then
    _initialize_fiftyone_run_for_mlflow_experiment t dataset experiment_name
      tracking_uri
  else
    .ok dataset

/-- `log_mlflow_run_to_fiftyone_dataset(sample_collection,
experiment_name, run_id=None)`: resolves the collection to its dataset,
ensures the experiment record (lines 90–93, with no `tracking_uri`
argument), then — `if run_id:` in Python, so only for a non-`None`,
non-empty id — attaches the run. -/
def log_mlflow_run_to_fiftyone_dataset (t : Tracking)
    (sample_collection : SampleCollection) (experiment_name : String)
    (run_id : Option String) : Outcome :=
  match ensure_experiment_record t sample_collection._dataset
      experiment_name none with
  | .err e d => .err e d
  | .ok dataset =>
    match run_id with
    | none => .ok dataset
    | some rid =>
      if rid = "" then .ok dataset
      else _add_fiftyone_run_for_mlflow_run t dataset experiment_name rid

/-- One `{"url": ..., "name": ...}` entry of `get_candidate_experiments`'s
result. -/
structure UrlEntry where
  url : String
  name : String
deriving DecidableEq, Repr

/-- The `{"urls": [...]}` mapping returned by
`get_candidate_experiments`. -/
structure CandidateExperiments where
  urls : List UrlEntry
deriving DecidableEq, Repr

/-- The list comprehension of `get_candidate_experiments` (lines
101–105): walks every registry record in order and keeps those whose
`method` is `"mlflow_experiment"`; reading `method` on a record that
never had it set raises. -/
def filterExperiments : List (String × RunConfig) →
    Except Err (List RunConfig)
  | [] => .ok []
  | (_, cfg) :: rest =>
    match cfg.method with
    | none => .error (.missingAttr "method")
    | some m =>
      match filterExperiments rest with
      | .error e => .error e
      | .ok tail =>
        if m = "mlflow_experiment" then .ok (cfg :: tail) else .ok tail

/-- The `for` loop of `get_candidate_experiments` (lines 107–115): for
each kept record reads `experiment_name`, reads `tracking_uri` inside a
bare `try/except` that falls back to the default on any failure, reads
`experiment_id`, and builds the URL entry. -/
def buildUrls : List RunConfig → Except Err (List UrlEntry)
  | [] => .ok []
  | cfg :: rest =>
    match cfg.experiment_name with
    | none => .error (.missingAttr "experiment_name")
    | some nm =>
      let uri : String :=
        match cfg.tracking_uri with
        | some u => u
        | none => "http://localhost:8080"
      match cfg.experiment_id with
      | none => .error (.missingAttr "experiment_id")
      | some id =>
        match buildUrls rest with
        | .error e => .error e
        | .ok tail => .ok (⟨uri ++ "/#/experiments/" ++ id, nm⟩ :: tail)

/-- `get_candidate_experiments(dataset)` (the spec's
`list_experiment_links`): the comprehension pass, then the URL-building
loop, wrapped as `{"urls": urls}`. -/
def get_candidate_experiments (dataset : Dataset) :
    Except Err CandidateExperiments :=
  match filterExperiments dataset.runs with
  | .error e => .error e
  | .ok kept =>
    match buildUrls kept with
    | .error e => .error e
    | .ok urls => .ok ⟨urls⟩

end MlflowPlugin

namespace MlflowPlugin

/-! ## Concrete fixtures

Small concrete tracking-service and registry states used to witness the
theorems below on explicit inputs. -/

/-- A concrete experiment as the tracking service reports it. -/
def exp1Fix : MlflowExperiment :=
  ⟨"s3://artifacts/exp1", 1700000000, "42", [("team", "cv")]⟩

/-- A concrete run `"run123"` whose `mlflow.runName` tag is `"My-Run"`. -/
def run123Fix : MlflowRun :=
  ⟨⟨"uuid-123", "42", "s3://artifacts/exp1/run123"⟩,
   ⟨[("mlflow.runName", "My-Run")], [("accuracy", 95)]⟩⟩

/-- A concrete run that lacks the `mlflow.runName` tag. -/
def runNoNameFix : MlflowRun :=
  ⟨⟨"uuid-9", "42", "s3://artifacts/exp1/noname"⟩, ⟨[("other", "x")], []⟩⟩

/-- A concrete tracking-service state holding `exp1Fix`, `run123Fix` and
`runNoNameFix`. -/
def tFix : Tracking :=
  ⟨[("exp1", exp1Fix)], [("run123", run123Fix), ("noname", runNoNameFix)]⟩

/-- A dataset with an empty registry. -/
def emptyDs : Dataset := ⟨"ds", []⟩

/-- A concrete experiment record for `"exp1"`, as
`_initialize_fiftyone_run_for_mlflow_experiment` would create it. -/
def expCfgFix : RunConfig :=
  { emptyDs.init_run with
    method := some "mlflow_experiment"
    artifact_location := some "s3://artifacts/exp1"
    created_at := some 1700000000
    experiment_name := some "exp1"
    experiment_id := some "42"
    tracking_uri := some "http://x"
    tags := some [("team", "cv")]
    runs := some [] }

/-- A dataset whose registry already holds the `"exp1"` experiment
record. -/
def dsWithExp : Dataset := ⟨"ds", [("exp1", expCfgFix)]⟩

/-- A run record, for a registry that holds only non-experiment
records. -/
def runCfgFix : RunConfig :=
  { emptyDs.init_run with
    method := some "mlflow_run"
    run_name := some "Old-Run"
    run_id := some "r0"
    experiment_id := some "42" }

/-- A dataset whose registry holds only non-experiment records. -/
def dsOnlyRuns : Dataset := ⟨"ds", [("Old_Run", runCfgFix)]⟩

/-- A dataset holding a record whose `method` attribute was never set;
reading it raises. -/
def dsNoMethod : Dataset := ⟨"ds", [("x", emptyDs.init_run)]⟩

/-- The run record `_add_fiftyone_run_for_mlflow_run` builds for
`run123Fix`. -/
def myRunCfgFix : RunConfig :=
  { emptyDs.init_run with
    method := some "mlflow_run"
    run_name := some "My-Run"
    run_id := some "run123"
    run_uuid := some "uuid-123"
    experiment_id := some "42"
    artifact_uri := some "s3://artifacts/exp1/run123"
    metrics := some [("accuracy", 95)]
    tags := some [("mlflow.runName", "My-Run")] }

/-- The registry after logging run `"run123"` of `"exp1"` on
`dsWithExp`. -/
def dsLogged : Dataset :=
  ⟨"ds", [("exp1", { expCfgFix with runs := some ["My-Run"] }),
          ("My_Run", myRunCfgFix)]⟩

/-- The registry after attaching run `"run123"` a second time: the
parent's `runs` holds the display name twice. -/
def dsDup : Dataset :=
  ⟨"ds", [("exp1", { expCfgFix with runs := some ["My-Run", "My-Run"] }),
          ("My_Run", myRunCfgFix)]⟩

/-- The registry state `ensure_experiment_record tFix emptyDs "exp1" none`
produces: one experiment record for `"exp1"` with the default tracking
URI. -/
def dsEnsured : Dataset :=
  ⟨"ds", [("exp1",
    { emptyDs.init_run with
      method := some "mlflow_experiment"
      artifact_location := some "s3://artifacts/exp1"
      created_at := some 1700000000
      experiment_name := some "exp1"
      experiment_id := some "42"
      tracking_uri := some "http://localhost:8080"
      tags := some [("team", "cv")]
      runs := some [] })]⟩

/-! ## Registry lemmas -/

theorem register_run_present (d : Dataset) (n : String) (c : RunConfig)
    (h : d.runs.any (fun p => p.1 = n) = true) :
    d.register_run n c =
      { d with runs := d.runs.map (fun p => if p.1 = n then (n, c) else p) } := by
  unfold Dataset.register_run
  rw [if_pos h]

theorem register_run_absent (d : Dataset) (n : String) (c : RunConfig)
    (h : ¬ d.runs.any (fun p => p.1 = n) = true) :
    d.register_run n c = { d with runs := d.runs ++ [(n, c)] } := by
  unfold Dataset.register_run
  rw [if_neg h]

theorem find?_replace_self (l : List (String × RunConfig)) (n : String)
    (c : RunConfig) :
    (l.map (fun p => if p.1 = n then (n, c) else p)).find?
        (fun p => p.1 = n) =
      (l.find? (fun p => p.1 = n)).map (fun _ => (n, c)) := by
  induction l with
  | nil => rfl
  | cons p rest ih =>
    by_cases hp : p.1 = n
    · simp [List.find?_cons, hp]
    · simp [List.find?_cons, hp, ih]

theorem find?_replace_ne (l : List (String × RunConfig)) (m n : String)
    (c : RunConfig) (h : m ≠ n) :
    (l.map (fun p => if p.1 = n then (n, c) else p)).find?
        (fun p => p.1 = m) =
      l.find? (fun p => p.1 = m) := by
  have h1 : ¬(n = m) := fun hc => h hc.symm
  induction l with
  | nil => rfl
  | cons p rest ih =>
    by_cases hp : p.1 = n
    · have h2 : ¬(p.1 = m) := fun hc => h (hc.symm.trans hp)
      simp [List.find?_cons, hp, h1, h2, ih]
    · by_cases hm : p.1 = m
      · simp [List.find?_cons, hp, hm, h]
      · simp [List.find?_cons, hp, hm, ih]

theorem find?_none_of_not_any (l : List (String × RunConfig)) (n : String)
    (h : ¬ l.any (fun p => p.1 = n) = true) :
    l.find? (fun p => p.1 = n) = none := by
  rw [List.find?_eq_none]
  intro p hp
  simp only [decide_eq_true_eq]
  intro hpn
  exact h (List.any_eq_true.mpr ⟨p, hp, by simpa using hpn⟩)

theorem get_run_info_register_self (d : Dataset) (n : String) (c : RunConfig) :
    (d.register_run n c).get_run_info n = some c := by
  by_cases h : d.runs.any (fun p => p.1 = n) = true
  · rw [register_run_present d n c h]
    unfold Dataset.get_run_info
    simp only [find?_replace_self]
    rcases hf : d.runs.find? (fun p => decide (p.1 = n)) with _ | q
    · rw [List.any_eq_true] at h
      obtain ⟨p, hp, hpn⟩ := h
      rw [List.find?_eq_none] at hf
      exact absurd hpn (by simpa using hf p hp)
    · simp [hf]
  · rw [register_run_absent d n c h]
    unfold Dataset.get_run_info
    simp only [List.find?_append, find?_none_of_not_any d.runs n h]
    simp [List.find?_cons]

theorem get_run_info_register_ne (d : Dataset) (m n : String) (c : RunConfig)
    (h : m ≠ n) :
    (d.register_run n c).get_run_info m = d.get_run_info m := by
  have h1 : ¬(n = m) := fun hc => h hc.symm
  by_cases ha : d.runs.any (fun p => p.1 = n) = true
  · rw [register_run_present d n c ha]
    unfold Dataset.get_run_info
    simp only [find?_replace_ne d.runs m n c h]
  · rw [register_run_absent d n c ha]
    unfold Dataset.get_run_info
    simp only [List.find?_append]
    rcases hf : d.runs.find? (fun p => decide (p.1 = m)) with _ | q
    · simp [List.find?_cons, h1]
    · simp [hf]

theorem get_run_info_update_ne (d : Dataset) (m n : String) (c : RunConfig)
    (h : m ≠ n) :
    (d.update_run_config n c).get_run_info m = d.get_run_info m := by
  unfold Dataset.update_run_config Dataset.get_run_info
  simp only [find?_replace_ne d.runs m n c h]

theorem get_run_info_update_self (d : Dataset) (n : String) (c c0 : RunConfig)
    (h : d.get_run_info n = some c0) :
    (d.update_run_config n c).get_run_info n = some c := by
  unfold Dataset.update_run_config Dataset.get_run_info
  unfold Dataset.get_run_info at h
  simp only [find?_replace_self]
  rcases hf : d.runs.find? (fun p => decide (p.1 = n)) with _ | q
  · rw [hf] at h
    simp at h
  · simp [hf]

theorem list_runs_update (d : Dataset) (n : String) (c : RunConfig) :
    (d.update_run_config n c).list_runs = d.list_runs := by
  unfold Dataset.update_run_config Dataset.list_runs
  simp only [List.map_map]
  congr 1
  funext p
  by_cases hp : p.1 = n <;> simp [Function.comp, hp]

theorem list_runs_register_mem (d : Dataset) (n : String) (c : RunConfig)
    (m : String) (h : m ∈ d.list_runs) :
    m ∈ (d.register_run n c).list_runs := by
  unfold Dataset.list_runs at h
  by_cases ha : d.runs.any (fun p => p.1 = n) = true
  · rw [register_run_present d n c ha]
    unfold Dataset.list_runs
    rw [List.map_map]
    obtain ⟨p, hp, hpm⟩ := List.mem_map.mp h
    refine List.mem_map.mpr ⟨p, hp, ?_⟩
    by_cases hpn : p.1 = n
    · have hnm : n = m := hpn.symm.trans hpm
      simp [Function.comp, hpn, hnm]
    · have hmn : ¬(m = n) := fun hc => hpn (hpm.trans hc)
      simp [Function.comp, hpn, hpm, hmn]
  · rw [register_run_absent d n c ha]
    unfold Dataset.list_runs
    rw [List.map_append]
    exact List.mem_append_left _ h

theorem mem_list_runs_iff (d : Dataset) (m : String) :
    m ∈ d.list_runs ↔ (d.get_run_info m).isSome := by
  unfold Dataset.list_runs Dataset.get_run_info
  constructor
  · intro h
    obtain ⟨p, hp, hpm⟩ := List.mem_map.mp h
    rcases hf : d.runs.find? (fun p => decide (p.1 = m)) with _ | q
    · rw [List.find?_eq_none] at hf
      have := hf p hp
      simp only [decide_eq_true_eq] at this
      exact absurd hpm this
    · simp [hf]
  · intro h
    rcases hf : d.runs.find? (fun p => decide (p.1 = m)) with _ | q
    · rw [hf] at h
      simp at h
    · have hq := List.find?_some hf
      simp only [decide_eq_true_eq] at hq
      exact List.mem_map.mpr ⟨q, List.mem_of_find?_eq_some hf, hq⟩

theorem exists_iff_mem_list_runs (d : Dataset) (n : String) :
    _fiftyone_experiment_run_exists d n = true ↔ n ∈ d.list_runs := by
  unfold _fiftyone_experiment_run_exists
  simp [List.contains]


theorem any_key_iff_mem (d : Dataset) (n : String) :
    d.runs.any (fun p => p.1 = n) = true ↔ n ∈ d.list_runs := by
  unfold Dataset.list_runs
  rw [List.any_eq_true]
  constructor
  · rintro ⟨p, hp, hpn⟩
    simp only [decide_eq_true_eq] at hpn
    exact List.mem_map.mpr ⟨p, hp, hpn⟩
  · intro h
    obtain ⟨p, hp, hpn⟩ := List.mem_map.mp h
    exact ⟨p, hp, by simpa using hpn⟩

theorem countP_key_zero_of_not_mem (d : Dataset) (n : String)
    (h : ¬ n ∈ d.list_runs) :
    d.runs.countP (fun p => p.1 = n) = 0 := by
  rw [List.countP_eq_zero]
  intro p hp
  simp only [decide_eq_true_eq]
  intro hpn
  exact h ((any_key_iff_mem d n).mp (List.any_eq_true.mpr ⟨p, hp, by simpa using hpn⟩))

theorem ensure_present (t : Tracking) (d : Dataset) (n : String)
    (u : Option String) (h : n ∈ d.list_runs) :
    ensure_experiment_record t d n u = .ok d := by
  unfold ensure_experiment_record
  have hex : _fiftyone_experiment_run_exists d n = true :=
    (exists_iff_mem_list_runs d n).mpr h
  rw [hex]
  rfl

theorem ensure_absent (t : Tracking) (d : Dataset) (n : String)
    (u : Option String) (h : ¬ n ∈ d.list_runs) :
    ensure_experiment_record t d n u =
      _initialize_fiftyone_run_for_mlflow_experiment t d n u := by
  unfold ensure_experiment_record
  have hex : _fiftyone_experiment_run_exists d n = false := by
    rcases hb : _fiftyone_experiment_run_exists d n
    · rfl
    · exact absurd ((exists_iff_mem_list_runs d n).mp hb) h
  rw [hex]
  rfl

theorem initialize_found (t : Tracking) (d : Dataset) (E : String)
    (uri : Option String) (exp : MlflowExperiment)
    (hexp : t.get_experiment_by_name E = some exp) :
    _initialize_fiftyone_run_for_mlflow_experiment t d E uri =
      .ok (d.register_run E
        (_mlflow_experiment_config d E (resolve_tracking_uri uri) exp)) := by
  unfold _initialize_fiftyone_run_for_mlflow_experiment
  rw [hexp]

theorem add_run_found (t : Tracking) (d : Dataset) (E rid : String)
    (run : MlflowRun) (nm : String)
    (hrun : t.get_run rid = some run)
    (htag : lookupTag run.data.tags "mlflow.runName" = some nm) :
    _add_fiftyone_run_for_mlflow_run t d E rid =
      (match (d.register_run (_format_run_name nm)
          (_mlflow_run_config d rid run nm)).get_run_info E with
        | none => .err (.runInfoNotFound E)
            (d.register_run (_format_run_name nm)
              (_mlflow_run_config d rid run nm))
        | some ec =>
          match ec.runs with
          | none => .err (.missingAttr "runs")
              (d.register_run (_format_run_name nm)
                (_mlflow_run_config d rid run nm))
          | some rs => .ok ((d.register_run (_format_run_name nm)
              (_mlflow_run_config d rid run nm)).update_run_config E
                { ec with runs := some (rs ++ [nm]) })) := by
  unfold _add_fiftyone_run_for_mlflow_run
  rw [hrun]
  simp only [htag]

/-! ## Claim theorems -/

/-- C9: `_format_run_name` replaces every hyphen character with an
underscore and leaves every other character unchanged, and is therefore
idempotent: `_format_run_name (_format_run_name s) = _format_run_name s`
for all strings `s`. -/
theorem C9_format_run_name_spec :
    (∀ s : String, (_format_run_name s).data =
      s.data.map (fun c => if c = '-' then '_' else c)) ∧
    (∀ s : String,
      _format_run_name (_format_run_name s) = _format_run_name s) := by
  constructor
  · intro s
    rfl
  · intro s
    unfold _format_run_name
    rw [List.map_map]
    have hff : ((fun c => if c = '-' then '_' else c) ∘
        (fun c => if c = '-' then '_' else c)) =
        (fun c : Char => if c = '-' then '_' else c) := by
      funext c
      by_cases hc : c = '-' <;> simp [Function.comp, hc]
    rw [hff]

/-- C5: a missing experiment (in `ensure_experiment_record`), a missing
run, or a run without the `"mlflow.runName"` tag (in
`_add_fiftyone_run_for_mlflow_run`) makes the operation fail with the
corresponding not-found / missing-field error, propagated unmodified, and
the failing operation performs no registry write (the error state is the
input dataset). -/
theorem C5_errors_propagate_without_write :
    (∀ (t : Tracking) (d : Dataset) (E : String) (uri : Option String),
      t.get_experiment_by_name E = none → ¬ E ∈ d.list_runs →
      ensure_experiment_record t d E uri =
        .err (.experimentNotFound E) d) ∧
    (∀ (t : Tracking) (d : Dataset) (E rid : String),
      t.get_run rid = none →
      _add_fiftyone_run_for_mlflow_run t d E rid =
        .err (.runNotFound rid) d) ∧
    (∀ (t : Tracking) (d : Dataset) (E rid : String) (run : MlflowRun),
      t.get_run rid = some run →
      lookupTag run.data.tags "mlflow.runName" = none →
      _add_fiftyone_run_for_mlflow_run t d E rid =
        .err (.missingTag "mlflow.runName") d) := by
  refine ⟨?_, ?_, ?_⟩
  · intro t d E uri hexp hmem
    rw [ensure_absent t d E uri hmem]
    unfold _initialize_fiftyone_run_for_mlflow_experiment
    rw [hexp]
  · intro t d E rid hrun
    unfold _add_fiftyone_run_for_mlflow_run
    rw [hrun]
  · intro t d E rid run hrun htag
    unfold _add_fiftyone_run_for_mlflow_run
    rw [hrun]
    simp only [htag]

/-- Witness for C5 on concrete inputs: an unknown experiment name, an
unknown run id, and a run whose tags lack `"mlflow.runName"`. -/
theorem C5_errors_propagate_without_write_witness :
    (tFix.get_experiment_by_name "ghost" = none ∧
      ¬ "ghost" ∈ emptyDs.list_runs ∧
      ensure_experiment_record tFix emptyDs "ghost" none =
        .err (.experimentNotFound "ghost") emptyDs) ∧
    (tFix.get_run "missing" = none ∧
      _add_fiftyone_run_for_mlflow_run tFix dsWithExp "exp1" "missing" =
        .err (.runNotFound "missing") dsWithExp) ∧
    (tFix.get_run "noname" = some runNoNameFix ∧
      lookupTag runNoNameFix.data.tags "mlflow.runName" = none ∧
      _add_fiftyone_run_for_mlflow_run tFix dsWithExp "exp1" "noname" =
        .err (.missingTag "mlflow.runName") dsWithExp) := by
  refine ⟨⟨by decide, by decide, ?_⟩, ⟨by decide, ?_⟩, ⟨by decide, by decide, ?_⟩⟩
  · exact C5_errors_propagate_without_write.1 tFix emptyDs "ghost" none
      (by decide) (by decide)
  · exact C5_errors_propagate_without_write.2.1 tFix dsWithExp "exp1" "missing"
      (by decide)
  · exact C5_errors_propagate_without_write.2.2 tFix dsWithExp "exp1" "noname"
      runNoNameFix (by decide) (by decide)


theorem countP_key_pos_of_mem (d : Dataset) (n : String)
    (h : n ∈ d.list_runs) :
    1 ≤ d.runs.countP (fun p => p.1 = n) := by
  have := (any_key_iff_mem d n).mpr h
  rw [List.any_eq_true] at this
  obtain ⟨p, hp, hpn⟩ := this
  have hpos : 0 < d.runs.countP (fun p => decide (p.1 = n)) :=
    List.countP_pos_iff.mpr ⟨p, hp, hpn⟩
  omega

/-- C2 (amended): for an experiment name not yet in the registry,
`ensure_experiment_record` creates a record with
`method == "mlflow_experiment"`, `runs == []`, the experiment fields
copied from the tracking service, `experiment_name == E`, and a
`tracking_uri` equal to the supplied value when it is supplied and
non-empty, and `"http://localhost:8080"` when it is not supplied — or
supplied as the empty string, which the code's falsy test also sends to
the default. -/
theorem C2_ensure_creates_record (t : Tracking) (d : Dataset) (E : String)
    (uri : Option String) (exp : MlflowExperiment)
    (hmem : ¬ E ∈ d.list_runs)
    (hexp : t.get_experiment_by_name E = some exp) :
    ∃ d', ensure_experiment_record t d E uri = .ok d' ∧
      ∃ cfg, d'.get_run_info E = some cfg ∧
        cfg.method = some "mlflow_experiment" ∧
        cfg.runs = some [] ∧
        cfg.artifact_location = some exp.artifact_location ∧
        cfg.created_at = some exp.creation_time ∧
        cfg.experiment_id = some exp.experiment_id ∧
        cfg.tags = some exp.tags ∧
        cfg.experiment_name = some E ∧
        (∀ u, uri = some u → ¬ u = "" → cfg.tracking_uri = some u) ∧
        ((uri = none ∨ uri = some "") →
          cfg.tracking_uri = some "http://localhost:8080") := by
  rw [ensure_absent t d E uri hmem]
  unfold _initialize_fiftyone_run_for_mlflow_experiment
  rw [hexp]
  refine ⟨_, rfl, _, get_run_info_register_self d E _, ?_⟩
  refine ⟨rfl, rfl, rfl, rfl, rfl, rfl, rfl, ?_, ?_⟩
  · rintro u rfl hu
    simp [_mlflow_experiment_config, resolve_tracking_uri, hu]
  · rintro (rfl | rfl) <;>
      simp [_mlflow_experiment_config, resolve_tracking_uri]

/-- Counterexample to C2 as stated: supplying the empty string as
`tracking_uri` does not store the supplied value; Python's `or` treats
`""` as falsy, so the record gets the default URI instead. -/
theorem C2_counterexample :
    (match ensure_experiment_record tFix emptyDs "exp1" (some "") with
      | .ok d => (d.get_run_info "exp1").map (fun c => c.tracking_uri)
      | .err _ _ => none) = some (some "http://localhost:8080") ∧
    ¬ (match ensure_experiment_record tFix emptyDs "exp1" (some "") with
      | .ok d => (d.get_run_info "exp1").map (fun c => c.tracking_uri)
      | .err _ _ => none) = some (some "") := by
  exact ⟨by decide, by decide⟩

/-- Witness for C2 on concrete inputs: a fresh registry, the tracking
service knowing `"exp1"`, and a supplied non-empty URI. -/
theorem C2_ensure_creates_record_witness :
    (¬ "exp1" ∈ emptyDs.list_runs) ∧
    tFix.get_experiment_by_name "exp1" = some exp1Fix ∧
    (∃ d', ensure_experiment_record tFix emptyDs "exp1"
        (some "http://remote:5000") = .ok d' ∧
      ∃ cfg, d'.get_run_info "exp1" = some cfg ∧
        cfg.method = some "mlflow_experiment" ∧
        cfg.runs = some [] ∧
        cfg.artifact_location = some exp1Fix.artifact_location ∧
        cfg.created_at = some exp1Fix.creation_time ∧
        cfg.experiment_id = some exp1Fix.experiment_id ∧
        cfg.tags = some exp1Fix.tags ∧
        cfg.experiment_name = some "exp1" ∧
        (∀ u, (some "http://remote:5000" : Option String) = some u →
          ¬ u = "" → cfg.tracking_uri = some u) ∧
        (((some "http://remote:5000" : Option String) = none ∨
            (some "http://remote:5000" : Option String) = some "") →
          cfg.tracking_uri = some "http://localhost:8080")) :=
  ⟨by decide, by decide,
    C2_ensure_creates_record tFix emptyDs "exp1" (some "http://remote:5000")
      exp1Fix (by decide) (by decide)⟩

/-- C3: `ensure_experiment_record` is idempotent: when a call succeeds,
the registry holds exactly one record for `E`, and any second call is a
no-op — it returns the dataset unchanged whatever the tracking-service
state or supplied URI, so it performs no tracking call and no registry
write. -/
theorem C3_ensure_idempotent (t : Tracking) (d : Dataset) (E : String)
    (uri : Option String) (d' : Dataset)
    (hok : ensure_experiment_record t d E uri = .ok d')
    (hcount : d.runs.countP (fun p => p.1 = E) ≤ 1) :
    d'.runs.countP (fun p => p.1 = E) = 1 ∧
    (∀ (t2 : Tracking) (uri2 : Option String),
      ensure_experiment_record t2 d' E uri2 = .ok d') := by
  by_cases hmem : E ∈ d.list_runs
  · rw [ensure_present t d E uri hmem] at hok
    have hd : d = d' := by
      cases hok
      rfl
    subst hd
    have h1 := countP_key_pos_of_mem d E hmem
    exact ⟨le_antisymm hcount h1, fun t2 uri2 => ensure_present t2 d E uri2 hmem⟩
  · rw [ensure_absent t d E uri hmem] at hok
    rcases hexp : t.get_experiment_by_name E with _ | exp
    · unfold _initialize_fiftyone_run_for_mlflow_experiment at hok
      rw [hexp] at hok
      exact absurd hok (by simp)
    · rw [initialize_found t d E uri exp hexp] at hok
      have hany : ¬ d.runs.any (fun p => p.1 = E) = true := by
        rw [any_key_iff_mem]
        exact hmem
      rw [register_run_absent d E _ hany] at hok
      have hd' : ({ d with runs := d.runs ++
          [(E, _mlflow_experiment_config d E (resolve_tracking_uri uri) exp)] }
            : Dataset) = d' := by
        cases hok
        rfl
      rw [← hd']
      have hz := countP_key_zero_of_not_mem d E hmem
      have hmem' : E ∈ ({ d with runs := d.runs ++
          [(E, _mlflow_experiment_config d E (resolve_tracking_uri uri) exp)] }
            : Dataset).list_runs := by
        unfold Dataset.list_runs
        rw [List.map_append]
        exact List.mem_append_right _ (by simp)
      refine ⟨?_, fun t2 uri2 => ensure_present t2 _ E uri2 hmem'⟩
      rw [show ({ d with runs := d.runs ++
          [(E, _mlflow_experiment_config d E (resolve_tracking_uri uri) exp)] }
            : Dataset).runs = d.runs ++
          [(E, _mlflow_experiment_config d E (resolve_tracking_uri uri) exp)]
        from rfl]
      rw [List.countP_append, hz]
      simp

/-- Witness for C3 on concrete inputs: ensuring `"exp1"` on an empty
registry, then observing the second call is a no-op. -/
theorem C3_ensure_idempotent_witness :
    ensure_experiment_record tFix emptyDs "exp1" none = .ok dsEnsured ∧
    emptyDs.runs.countP (fun p => p.1 = "exp1") ≤ 1 ∧
    (dsEnsured.runs.countP (fun p => p.1 = "exp1") = 1 ∧
      (∀ (t2 : Tracking) (uri2 : Option String),
        ensure_experiment_record t2 dsEnsured "exp1" uri2 = .ok dsEnsured)) :=
  ⟨by decide, by decide,
    C3_ensure_idempotent tFix emptyDs "exp1" none dsEnsured (by decide)
      (by decide)⟩


theorem filterExperiments_ok (l : List (String × RunConfig))
    (h : ∀ p ∈ l, (p.2.method).isSome = true) :
    filterExperiments l = .ok
      ((l.filter (fun p => p.2.method = some "mlflow_experiment")).map
        Prod.snd) := by
  induction l with
  | nil => rfl
  | cons p rest ih =>
    obtain ⟨k, cfg⟩ := p
    rcases hm : cfg.method with _ | m
    · have hp := h (k, cfg) (List.mem_cons_self _ _)
      rw [hm] at hp
      simp at hp
    · have ih' := ih (fun q hq => h q (List.mem_cons_of_mem _ hq))
      by_cases hmm : m = "mlflow_experiment"
      · subst hmm
        simp [filterExperiments, hm, ih', List.filter_cons]
      · simp [filterExperiments, hm, ih', List.filter_cons, hmm]

theorem buildUrls_ok (l : List RunConfig)
    (h : ∀ cfg ∈ l, (cfg.experiment_name).isSome = true ∧
      (cfg.experiment_id).isSome = true) :
    buildUrls l = .ok (l.map (fun cfg =>
      ⟨(cfg.tracking_uri.getD "http://localhost:8080") ++ "/#/experiments/"
        ++ cfg.experiment_id.getD "", cfg.experiment_name.getD ""⟩)) := by
  induction l with
  | nil => rfl
  | cons cfg rest ih =>
    have hc := h cfg (List.mem_cons_self _ _)
    have ih' := ih (fun q hq => h q (List.mem_cons_of_mem _ hq))
    rcases hn : cfg.experiment_name with _ | nm
    · rw [hn] at hc
      simp at hc
    · rcases hi : cfg.experiment_id with _ | id
      · rw [hi] at hc
        simp at hc
      · rcases hu : cfg.tracking_uri with _ | u <;>
          simp [buildUrls, hn, hi, hu, ih']

theorem filterExperiments_error (l : List (String × RunConfig)) (e : Err)
    (h : filterExperiments l = .error e) : e = .missingAttr "method" := by
  induction l with
  | nil => exact absurd h (by simp [filterExperiments])
  | cons p rest ih =>
    obtain ⟨k, cfg⟩ := p
    rcases hm : cfg.method with _ | m
    · simp [filterExperiments, hm] at h
      exact h.symm
    · rcases hrest : filterExperiments rest with e' | tail
      · simp only [filterExperiments, hm, hrest] at h
        cases h
        exact ih hrest
      · by_cases hmm : m = "mlflow_experiment" <;>
          simp [filterExperiments, hm, hrest, hmm] at h

theorem buildUrls_error (l : List RunConfig) (e : Err)
    (h : buildUrls l = .error e) :
    e = .missingAttr "experiment_name" ∨ e = .missingAttr "experiment_id" := by
  induction l with
  | nil => exact absurd h (by simp [buildUrls])
  | cons cfg rest ih =>
    rcases hn : cfg.experiment_name with _ | nm
    · simp [buildUrls, hn] at h
      exact Or.inl h.symm
    · rcases hi : cfg.experiment_id with _ | id
      · simp [buildUrls, hn, hi] at h
        exact Or.inr h.symm
      · rcases hrest : buildUrls rest with e' | tail
        · simp only [buildUrls, hn, hi, hrest] at h
          cases h
          exact ih hrest
        · simp [buildUrls, hn, hi, hrest] at h

theorem filterExperiments_fill_uri (l : List (String × RunConfig)) :
    filterExperiments (l.map (fun p => (p.1, { p.2 with tracking_uri := some (p.2.tracking_uri.getD "http://localhost:8080") }))) =
      match filterExperiments l with
      | .error e => .error e
      | .ok cfgs => .ok (cfgs.map (fun c => { c with tracking_uri := some (c.tracking_uri.getD "http://localhost:8080") })) := by
  induction l with
  | nil => rfl
  | cons p rest ih =>
    obtain ⟨k, cfg⟩ := p
    rcases hm : cfg.method with _ | m
    · simp [filterExperiments, hm]
    · rcases hrest : filterExperiments rest with e' | tail
      · rw [hrest] at ih
        by_cases hmm : m = "mlflow_experiment" <;>
          simp [filterExperiments, hm, hrest, hmm, ih]
      · rw [hrest] at ih
        by_cases hmm : m = "mlflow_experiment" <;>
          simp [filterExperiments, hm, hrest, hmm, ih]

theorem buildUrls_fill_uri (l : List RunConfig) :
    buildUrls (l.map (fun c => { c with tracking_uri := some (c.tracking_uri.getD "http://localhost:8080") })) =
      buildUrls l := by
  induction l with
  | nil => rfl
  | cons cfg rest ih =>
    rcases hn : cfg.experiment_name with _ | nm
    · simp [buildUrls, hn]
    · rcases hi : cfg.experiment_id with _ | id
      · simp [buildUrls, hn, hi]
      · rcases hu : cfg.tracking_uri with _ | u <;>
          simp [buildUrls, hn, hi, hu, ih]

/-- C6: `get_candidate_experiments` returns `{"urls": L}` with exactly
one entry per registry record whose `method` equals
`"mlflow_experiment"` — URL `tracking_uri ++ "/#/experiments/" ++
experiment_id`, name `experiment_name` — and no entry for any other
record, provided every record has its `method` attribute set and every
kept record has `experiment_name` and `experiment_id` set (a record
missing those attributes makes the Python code raise instead). -/
theorem C6_experiment_links (d : Dataset)
    (h : ∀ p ∈ d.runs, (p.2.method).isSome = true ∧
      (p.2.method = some "mlflow_experiment" →
        (p.2.experiment_name).isSome = true ∧
        (p.2.experiment_id).isSome = true)) :
    get_candidate_experiments d = .ok
      ⟨(d.runs.filter (fun p => p.2.method = some "mlflow_experiment")).map
        (fun p => ⟨(p.2.tracking_uri.getD "http://localhost:8080") ++
          "/#/experiments/" ++ p.2.experiment_id.getD "",
          p.2.experiment_name.getD ""⟩)⟩ := by
  have hpres : ∀ cfg ∈ (d.runs.filter
      (fun p => p.2.method = some "mlflow_experiment")).map Prod.snd,
      (cfg.experiment_name).isSome = true ∧
      (cfg.experiment_id).isSome = true := by
    intro cfg hcfg
    obtain ⟨p, hp, hpc⟩ := List.mem_map.mp hcfg
    have hfil := List.mem_filter.mp hp
    have hkept : p.2.method = some "mlflow_experiment" := by
      have := hfil.2
      simpa using this
    exact hpc ▸ (h p hfil.1).2 hkept
  unfold get_candidate_experiments
  simp only [filterExperiments_ok d.runs (fun p hp => (h p hp).1),
    buildUrls_ok _ hpres, List.map_map]
  rfl

/-- Witness for C6 on the claim's two concrete registries: one
experiment record `{experiment_name: "exp1", experiment_id: "42",
tracking_uri: "http://x"}`, and a registry containing only
non-experiment records. -/
theorem C6_experiment_links_witness :
    ((∀ p ∈ dsWithExp.runs, (p.2.method).isSome = true ∧
        (p.2.method = some "mlflow_experiment" →
          (p.2.experiment_name).isSome = true ∧
          (p.2.experiment_id).isSome = true)) ∧
      get_candidate_experiments dsWithExp =
        .ok ⟨[⟨"http://x/#/experiments/42", "exp1"⟩]⟩) ∧
    ((∀ p ∈ dsOnlyRuns.runs, (p.2.method).isSome = true ∧
        (p.2.method = some "mlflow_experiment" →
          (p.2.experiment_name).isSome = true ∧
          (p.2.experiment_id).isSome = true)) ∧
      get_candidate_experiments dsOnlyRuns = .ok ⟨[]⟩) := by
  refine ⟨⟨by decide, ?_⟩, ⟨by decide, ?_⟩⟩
  · exact (C6_experiment_links dsWithExp (by decide)).trans (by decide)
  · exact (C6_experiment_links dsOnlyRuns (by decide)).trans (by decide)

/-- C8: in `get_candidate_experiments` the `tracking_uri` read can never
be the failure: any error comes from the `method`, `experiment_name` or
`experiment_id` reads; and the result is unchanged when every record's
`tracking_uri` is replaced by its present-or-default value — an absent
`tracking_uri` is silently treated as `"http://localhost:8080"`. -/
theorem C8_tracking_uri_never_fails :
    (∀ (d : Dataset) (e : Err), get_candidate_experiments d = .error e →
      e = .missingAttr "method" ∨ e = .missingAttr "experiment_name" ∨
        e = .missingAttr "experiment_id") ∧
    (∀ d : Dataset, get_candidate_experiments d =
      get_candidate_experiments { d with runs := d.runs.map (fun p =>
        (p.1, { p.2 with tracking_uri := some (p.2.tracking_uri.getD "http://localhost:8080") })) }) := by
  constructor
  · intro d e h
    unfold get_candidate_experiments at h
    rcases hfil : filterExperiments d.runs with e' | kept
    · rw [hfil] at h
      simp at h
      exact Or.inl (h ▸ filterExperiments_error d.runs e' hfil)
    · rw [hfil] at h
      replace h : (match buildUrls kept with
        | .error e => (.error e : Except Err CandidateExperiments)
        | .ok urls => .ok ⟨urls⟩) = .error e := h
      rcases hurl : buildUrls kept with e'' | urls
      · rw [hurl] at h
        simp at h
        exact Or.inr (h ▸ buildUrls_error kept e'' hurl)
      · rw [hurl] at h
        simp at h
  · intro d
    unfold get_candidate_experiments
    rw [show ({ d with runs := d.runs.map (fun p =>
        (p.1, { p.2 with tracking_uri := some (p.2.tracking_uri.getD "http://localhost:8080") })) }
            : Dataset).runs = d.runs.map (fun p =>
        (p.1, { p.2 with tracking_uri := some (p.2.tracking_uri.getD "http://localhost:8080") })) from rfl]
    rw [filterExperiments_fill_uri]
    rcases hfil : filterExperiments d.runs with e' | kept
    · rfl
    · show (match buildUrls kept with
        | .error e => (.error e : Except Err CandidateExperiments)
        | .ok urls => .ok ⟨urls⟩) =
        (match buildUrls (kept.map (fun c => { c with tracking_uri := some (c.tracking_uri.getD "http://localhost:8080") })) with
        | .error e => (.error e : Except Err CandidateExperiments)
        | .ok urls => .ok ⟨urls⟩)
      rw [buildUrls_fill_uri]

/-- Witness for C8 on a concrete input: a record with no `method`
attribute makes the query fail with the `method` error, never the
`tracking_uri` one. -/
theorem C8_tracking_uri_never_fails_witness :
    get_candidate_experiments dsNoMethod = .error (.missingAttr "method") ∧
    ((.missingAttr "method" : Err) = .missingAttr "method" ∨
      (.missingAttr "method" : Err) = .missingAttr "experiment_name" ∨
      (.missingAttr "method" : Err) = .missingAttr "experiment_id") :=
  ⟨by decide, C8_tracking_uri_never_fails.1 dsNoMethod (.missingAttr "method")
    (by decide)⟩


theorem mlflow_run_config_runs (d : Dataset) (rid : String) (run : MlflowRun)
    (nm : String) : (_mlflow_run_config d rid run nm).runs = none := rfl

theorem add_run_found_ok (t : Tracking) (d : Dataset) (E rid : String)
    (run : MlflowRun) (nm : String) (ec : RunConfig) (rs : List String)
    (hrun : t.get_run rid = some run)
    (htag : lookupTag run.data.tags "mlflow.runName" = some nm)
    (hne : ¬ E = _format_run_name nm)
    (hec : d.get_run_info E = some ec)
    (hrs : ec.runs = some rs) :
    _add_fiftyone_run_for_mlflow_run t d E rid = .ok
      ((d.register_run (_format_run_name nm)
        (_mlflow_run_config d rid run nm)).update_run_config E
          { ec with runs := some (rs ++ [nm]) }) := by
  rw [add_run_found t d E rid run nm hrun htag]
  have h1 : (d.register_run (_format_run_name nm)
      (_mlflow_run_config d rid run nm)).get_run_info E = some ec := by
    rw [get_run_info_register_ne _ _ _ _ hne]
    exact hec
  simp only [h1, hrs]

theorem attach_ok_shape (t : Tracking) (d : Dataset) (E rid : String)
    (d' : Dataset)
    (h : _add_fiftyone_run_for_mlflow_run t d E rid = .ok d') :
    ∃ run nm ec rs,
      t.get_run rid = some run ∧
      lookupTag run.data.tags "mlflow.runName" = some nm ∧
      ¬ E = _format_run_name nm ∧
      d.get_run_info E = some ec ∧
      ec.runs = some rs ∧
      d' = (d.register_run (_format_run_name nm)
        (_mlflow_run_config d rid run nm)).update_run_config E
          { ec with runs := some (rs ++ [nm]) } := by
  rcases hrun : t.get_run rid with _ | run
  · unfold _add_fiftyone_run_for_mlflow_run at h
    rw [hrun] at h
    exact absurd h (by simp)
  · rcases htag : lookupTag run.data.tags "mlflow.runName" with _ | nm
    · unfold _add_fiftyone_run_for_mlflow_run at h
      rw [hrun] at h
      simp only [htag] at h
      exact absurd h (by simp)
    · rw [add_run_found t d E rid run nm hrun htag] at h
      by_cases hne : E = _format_run_name nm
      · rw [hne] at h
        simp only [get_run_info_register_self, mlflow_run_config_runs] at h
        exact absurd h (by simp)
      · rcases hec : d.get_run_info E with _ | ec
        · have h1 : (d.register_run (_format_run_name nm)
              (_mlflow_run_config d rid run nm)).get_run_info E = none := by
            rw [get_run_info_register_ne _ _ _ _ hne]
            exact hec
          simp only [h1] at h
          exact absurd h (by simp)
        · have h1 : (d.register_run (_format_run_name nm)
              (_mlflow_run_config d rid run nm)).get_run_info E = some ec := by
            rw [get_run_info_register_ne _ _ _ _ hne]
            exact hec
          simp only [h1] at h
          rcases hrs : ec.runs with _ | rs
          · simp only [hrs] at h
            exact absurd h (by simp)
          · simp only [hrs] at h
            cases h
            exact ⟨run, nm, ec, rs, rfl, htag, hne, rfl, hrs, rfl⟩

theorem ensure_ok_mem (t : Tracking) (d : Dataset) (E : String)
    (uri : Option String) (d' : Dataset)
    (hok : ensure_experiment_record t d E uri = .ok d') :
    E ∈ d'.list_runs := by
  by_cases hmem : E ∈ d.list_runs
  · rw [ensure_present t d E uri hmem] at hok
    cases hok
    exact hmem
  · rw [ensure_absent t d E uri hmem] at hok
    rcases hexp : t.get_experiment_by_name E with _ | exp
    · unfold _initialize_fiftyone_run_for_mlflow_experiment at hok
      rw [hexp] at hok
      exact absurd hok (by simp)
    · rw [initialize_found t d E uri exp hexp] at hok
      have hany : ¬ d.runs.any (fun p => p.1 = E) = true := by
        rw [any_key_iff_mem]
        exact hmem
      rw [register_run_absent d E _ hany] at hok
      cases hok
      unfold Dataset.list_runs
      rw [List.map_append]
      exact List.mem_append_right _ (by simp)


/-- C1: on a dataset whose registry already holds the `"exp1"` experiment
record, `log_mlflow_run_to_fiftyone_dataset` for run `"run123"` whose
`mlflow.runName` tag is `"My-Run"` succeeds, stores a record under the
normalized key `"My_Run"` with `method == "mlflow_run"` and the run's
fields copied from the tracking service, and appends the raw name
`"My-Run"` to the `"exp1"` record's `runs` sequence. -/
theorem C1_log_run_mirrors_run (t : Tracking) (d : Dataset)
    (ecfg : RunConfig) (rs : List String) (run : MlflowRun)
    (hec : d.get_run_info "exp1" = some ecfg)
    (hmethod : ecfg.method = some "mlflow_experiment")
    (hruns : ecfg.runs = some rs)
    (hrun : t.get_run "run123" = some run)
    (htag : lookupTag run.data.tags "mlflow.runName" = some "My-Run") :
    ∃ d', log_mlflow_run_to_fiftyone_dataset t ⟨d⟩ "exp1" (some "run123") =
        .ok d' ∧
      (∃ rc, d'.get_run_info "My_Run" = some rc ∧
        rc.method = some "mlflow_run" ∧
        rc.run_name = some "My-Run" ∧
        rc.run_id = some "run123" ∧
        rc.run_uuid = some run.info.run_uuid ∧
        rc.experiment_id = some run.info.experiment_id ∧
        rc.artifact_uri = some run.info.artifact_uri ∧
        rc.metrics = some run.data.metrics ∧
        rc.tags = some run.data.tags) ∧
      (∃ ec', d'.get_run_info "exp1" = some ec' ∧
        ec'.runs = some (rs ++ ["My-Run"]) ∧ "My-Run" ∈ rs ++ ["My-Run"]) := by
  have hfmt : _format_run_name "My-Run" = "My_Run" := by decide
  have hmem : "exp1" ∈ d.list_runs := by
    rw [mem_list_runs_iff, hec]
    rfl
  have hne : ¬ ("exp1" : String) = _format_run_name "My-Run" := by decide
  have hattach := add_run_found_ok t d "exp1" "run123" run "My-Run" ecfg rs
    hrun htag hne hec hruns
  unfold log_mlflow_run_to_fiftyone_dataset
  simp only [ensure_present t d "exp1" none hmem]
  have hrid : ¬ ("run123" : String) = "" := by decide
  simp only [hrid, if_false, hattach]
  refine ⟨_, rfl, ?_, ?_⟩
  · have hrc : ((d.register_run (_format_run_name "My-Run")
        (_mlflow_run_config d "run123" run "My-Run")).update_run_config "exp1"
          { ecfg with runs := some (rs ++ ["My-Run"]) }).get_run_info "My_Run" =
        some (_mlflow_run_config d "run123" run "My-Run") := by
      rw [get_run_info_update_ne _ _ _ _ (by decide)]
      rw [← hfmt]
      exact get_run_info_register_self d _ _
    rw [hfmt] at hrc
    exact ⟨_, hrc, rfl, rfl, rfl, rfl, rfl, rfl, rfl, rfl⟩
  · refine ⟨_, get_run_info_update_self _ "exp1" _ ecfg
      (by rw [get_run_info_register_ne _ _ _ _ hne]; exact hec),
      rfl, List.mem_append_right _ (by simp)⟩

/-- Witness for C1 on concrete inputs: the fixture tracking service and
the registry already holding the `"exp1"` record. -/
theorem C1_log_run_mirrors_run_witness :
    dsWithExp.get_run_info "exp1" = some expCfgFix ∧
    expCfgFix.method = some "mlflow_experiment" ∧
    expCfgFix.runs = some [] ∧
    tFix.get_run "run123" = some run123Fix ∧
    lookupTag run123Fix.data.tags "mlflow.runName" = some "My-Run" ∧
    (∃ d', log_mlflow_run_to_fiftyone_dataset tFix ⟨dsWithExp⟩ "exp1"
        (some "run123") = .ok d' ∧
      (∃ rc, d'.get_run_info "My_Run" = some rc ∧
        rc.method = some "mlflow_run" ∧
        rc.run_name = some "My-Run" ∧
        rc.run_id = some "run123" ∧
        rc.run_uuid = some run123Fix.info.run_uuid ∧
        rc.experiment_id = some run123Fix.info.experiment_id ∧
        rc.artifact_uri = some run123Fix.info.artifact_uri ∧
        rc.metrics = some run123Fix.data.metrics ∧
        rc.tags = some run123Fix.data.tags) ∧
      (∃ ec', d'.get_run_info "exp1" = some ec' ∧
        ec'.runs = some ([] ++ ["My-Run"]) ∧
        "My-Run" ∈ ([] : List String) ++ ["My-Run"])) :=
  ⟨by decide, by decide, by decide, by decide, by decide,
    C1_log_run_mirrors_run tFix dsWithExp expCfgFix [] run123Fix (by decide)
      (by decide) (by decide) (by decide) (by decide)⟩

/-- C10: `_add_fiftyone_run_for_mlflow_run` writes the run record before
it reads the parent experiment record, so when no record exists for
`experiment_name` (and the run name does not collide with it) the
operation raises the registry's not-found error from the parent lookup
while the run record it already wrote remains in the registry: the error
state differs from the input registry. -/
theorem C10_attach_not_atomic (t : Tracking) (d : Dataset) (E rid : String)
    (run : MlflowRun) (nm : String)
    (hmem : ¬ E ∈ d.list_runs)
    (hne : ¬ E = _format_run_name nm)
    (hrun : t.get_run rid = some run)
    (htag : lookupTag run.data.tags "mlflow.runName" = some nm) :
    _add_fiftyone_run_for_mlflow_run t d E rid =
      .err (.runInfoNotFound E)
        (d.register_run (_format_run_name nm)
          (_mlflow_run_config d rid run nm)) ∧
    (d.register_run (_format_run_name nm)
      (_mlflow_run_config d rid run nm)).get_run_info (_format_run_name nm) =
        some (_mlflow_run_config d rid run nm) ∧
    _format_run_name nm ∈ (d.register_run (_format_run_name nm)
      (_mlflow_run_config d rid run nm)).list_runs := by
  have hinfo : (d.register_run (_format_run_name nm)
      (_mlflow_run_config d rid run nm)).get_run_info E = none := by
    rw [get_run_info_register_ne _ _ _ _ hne]
    rcases hx : d.get_run_info E with _ | c
    · rfl
    · exact absurd ((mem_list_runs_iff d E).mpr (by rw [hx]; rfl)) hmem
  refine ⟨?_, get_run_info_register_self d _ _, ?_⟩
  · rw [add_run_found t d E rid run nm hrun htag]
    simp only [hinfo]
  · rw [mem_list_runs_iff, get_run_info_register_self d _ _]
    rfl

/-- Witness for C10 on concrete inputs: attaching `"run123"` to the
absent experiment `"exp1"` on an empty registry fails but leaves the
`"My_Run"` record behind. -/
theorem C10_attach_not_atomic_witness :
    (¬ "exp1" ∈ emptyDs.list_runs) ∧
    (¬ ("exp1" : String) = _format_run_name "My-Run") ∧
    tFix.get_run "run123" = some run123Fix ∧
    lookupTag run123Fix.data.tags "mlflow.runName" = some "My-Run" ∧
    (_add_fiftyone_run_for_mlflow_run tFix emptyDs "exp1" "run123" =
      .err (.runInfoNotFound "exp1")
        (emptyDs.register_run (_format_run_name "My-Run")
          (_mlflow_run_config emptyDs "run123" run123Fix "My-Run")) ∧
    (emptyDs.register_run (_format_run_name "My-Run")
      (_mlflow_run_config emptyDs "run123" run123Fix "My-Run")).get_run_info
        (_format_run_name "My-Run") =
          some (_mlflow_run_config emptyDs "run123" run123Fix "My-Run") ∧
    _format_run_name "My-Run" ∈ (emptyDs.register_run
      (_format_run_name "My-Run")
      (_mlflow_run_config emptyDs "run123" run123Fix "My-Run")).list_runs) :=
  ⟨by decide, by decide, by decide, by decide,
    C10_attach_not_atomic tFix emptyDs "exp1" "run123" run123Fix "My-Run"
      (by decide) (by decide) (by decide) (by decide)⟩


/-- Counterexample to C4 as stated: attaching run `"run123"` twice
duplicates the display name in the `"exp1"` record's `runs` sequence —
the unconditional append on line 73 does not deduplicate. -/
theorem C4_counterexample :
    (match _add_fiftyone_run_for_mlflow_run tFix dsWithExp "exp1" "run123" with
      | .ok d1 =>
        (match _add_fiftyone_run_for_mlflow_run tFix d1 "exp1" "run123" with
          | .ok d2 => (d2.get_run_info "exp1").map (fun c => c.runs)
          | .err _ _ => none)
      | .err _ _ => none) = some (some ["My-Run", "My-Run"]) := by
  decide

/-- C4 (amended): an experiment record's `runs` names are added only by
`_add_fiftyone_run_for_mlflow_run` — `ensure_experiment_record` either
leaves a record as it was or creates it with `runs == []` — and a
successful attach appends the run's display name to the parent's `runs`;
but attaching the same run id twice appends its name twice, duplicating
the entry. -/
theorem C4_runs_membership_and_duplication :
    (∀ (t : Tracking) (d : Dataset) (E : String) (uri : Option String)
      (d' : Dataset) (F : String) (cfg' : RunConfig),
      ensure_experiment_record t d E uri = .ok d' →
      d'.get_run_info F = some cfg' →
      d.get_run_info F = some cfg' ∨ (F = E ∧ cfg'.runs = some [])) ∧
    (∀ (t : Tracking) (d : Dataset) (E rid : String) (d' : Dataset)
      (run : MlflowRun) (nm : String),
      _add_fiftyone_run_for_mlflow_run t d E rid = .ok d' →
      t.get_run rid = some run →
      lookupTag run.data.tags "mlflow.runName" = some nm →
      ∃ ec rs, d.get_run_info E = some ec ∧ ec.runs = some rs ∧
        ∃ ec', d'.get_run_info E = some ec' ∧
          ec'.runs = some (rs ++ [nm])) ∧
    (∀ (t : Tracking) (d : Dataset) (E rid : String) (d1 d2 : Dataset),
      _add_fiftyone_run_for_mlflow_run t d E rid = .ok d1 →
      _add_fiftyone_run_for_mlflow_run t d1 E rid = .ok d2 →
      ∃ nm rs ec2, d2.get_run_info E = some ec2 ∧
        ec2.runs = some (rs ++ [nm] ++ [nm])) := by
  have part2 : ∀ (t : Tracking) (d : Dataset) (E rid : String) (d' : Dataset)
      (run : MlflowRun) (nm : String),
      _add_fiftyone_run_for_mlflow_run t d E rid = .ok d' →
      t.get_run rid = some run →
      lookupTag run.data.tags "mlflow.runName" = some nm →
      ∃ ec rs, d.get_run_info E = some ec ∧ ec.runs = some rs ∧
        ∃ ec', d'.get_run_info E = some ec' ∧
          ec'.runs = some (rs ++ [nm]) := by
    intro t d E rid d' run nm h hrun htag
    obtain ⟨run', nm', ec, rs, hrun', htag', hne, hec, hrs, hd'⟩ :=
      attach_ok_shape t d E rid d' h
    rw [hrun] at hrun'
    cases hrun'
    rw [htag] at htag'
    cases htag'
    refine ⟨ec, rs, hec, hrs, ?_⟩
    subst hd'
    refine ⟨_, get_run_info_update_self _ E _ ec ?_, rfl⟩
    rw [get_run_info_register_ne _ _ _ _ hne]
    exact hec
  refine ⟨?_, part2, ?_⟩
  · intro t d E uri d' F cfg' hok hF
    by_cases hmem : E ∈ d.list_runs
    · rw [ensure_present t d E uri hmem] at hok
      cases hok
      exact Or.inl hF
    · rw [ensure_absent t d E uri hmem] at hok
      rcases hexp : t.get_experiment_by_name E with _ | exp
      · unfold _initialize_fiftyone_run_for_mlflow_experiment at hok
        rw [hexp] at hok
        exact absurd hok (by simp)
      · rw [initialize_found t d E uri exp hexp] at hok
        cases hok
        by_cases hFE : F = E
        · subst hFE
          rw [get_run_info_register_self] at hF
          cases hF
          exact Or.inr ⟨rfl, rfl⟩
        · rw [get_run_info_register_ne _ _ _ _ hFE] at hF
          exact Or.inl hF
  · intro t d E rid d1 d2 h1 h2
    obtain ⟨run, nm, ec, rs, hrun, htag, hne, hec, hrs, hd1⟩ :=
      attach_ok_shape t d E rid d1 h1
    obtain ⟨ecx, rsx, hecx, hrsx, ec1, hec1, hruns1⟩ :=
      part2 t d E rid d1 run nm h1 hrun htag
    obtain ⟨ecy, rsy, hecy, hrsy, ec2, hec2, hruns2⟩ :=
      part2 t d1 E rid d2 run nm h2 hrun htag
    rw [hec1] at hecy
    cases hecy
    rw [hruns1] at hrsy
    cases hrsy
    exact ⟨nm, rsx, ec2, hec2, hruns2⟩

/-- Witness for the amended C4 on concrete inputs: attaching `"run123"`
to `"exp1"` once and then a second time leaves `runs` with the display
name twice. -/
theorem C4_runs_membership_and_duplication_witness :
    _add_fiftyone_run_for_mlflow_run tFix dsWithExp "exp1" "run123" =
      .ok dsLogged ∧
    _add_fiftyone_run_for_mlflow_run tFix dsLogged "exp1" "run123" =
      .ok dsDup ∧
    (∃ nm rs ec2, dsDup.get_run_info "exp1" = some ec2 ∧
      ec2.runs = some (rs ++ [nm] ++ [nm])) :=
  ⟨by decide, by decide,
    C4_runs_membership_and_duplication.2.2 tFix dsWithExp "exp1" "run123"
      dsLogged dsDup (by decide) (by decide)⟩

/-- C7: `log_mlflow_run_to_fiftyone_dataset` ensures the experiment
record exists before anything else: after a successful call the
experiment record is in the underlying dataset's registry; with a `None`
or empty `run_id` the call is exactly the ensure step — no run record is
written and the tracking service's run store is never consulted (the
result does not depend on it); with a non-empty `run_id` a successful
call has created a `"mlflow_run"` record under the normalized run name
and linked the raw name into the experiment record's `runs`. -/
theorem C7_log_run_entry_point :
    (∀ (t : Tracking) (c : SampleCollection) (E : String)
      (rid : Option String) (d' : Dataset),
      log_mlflow_run_to_fiftyone_dataset t c E rid = .ok d' →
      E ∈ d'.list_runs) ∧
    (∀ (t : Tracking) (c : SampleCollection) (E : String),
      log_mlflow_run_to_fiftyone_dataset t c E none =
        ensure_experiment_record t c._dataset E none ∧
      log_mlflow_run_to_fiftyone_dataset t c E (some "") =
        ensure_experiment_record t c._dataset E none) ∧
    (∀ (t : Tracking) (rs2 : List (String × MlflowRun))
      (c : SampleCollection) (E : String),
      log_mlflow_run_to_fiftyone_dataset ⟨t.experimentsByName, rs2⟩ c E none =
        log_mlflow_run_to_fiftyone_dataset t c E none ∧
      log_mlflow_run_to_fiftyone_dataset ⟨t.experimentsByName, rs2⟩ c E
          (some "") =
        log_mlflow_run_to_fiftyone_dataset t c E (some "")) ∧
    (∀ (t : Tracking) (c : SampleCollection) (E r : String) (d' : Dataset),
      ¬ r = "" →
      log_mlflow_run_to_fiftyone_dataset t c E (some r) = .ok d' →
      ∃ run nm, t.get_run r = some run ∧
        lookupTag run.data.tags "mlflow.runName" = some nm ∧
        (∃ rc, d'.get_run_info (_format_run_name nm) = some rc ∧
          rc.method = some "mlflow_run") ∧
        (∃ ec rs, d'.get_run_info E = some ec ∧ ec.runs = some rs ∧
          nm ∈ rs)) := by
  refine ⟨?_, ?_, ?_, ?_⟩
  · intro t c E rid d' h
    unfold log_mlflow_run_to_fiftyone_dataset at h
    rcases hres : ensure_experiment_record t c._dataset E none with dm | ⟨e, dm⟩
    · rw [hres] at h
      rcases rid with _ | r
      · cases h
        exact ensure_ok_mem t c._dataset E none d' hres
      · by_cases hr : r = ""
        · subst hr
          simp only [if_pos rfl] at h
          cases h
          exact ensure_ok_mem t c._dataset E none d' hres
        · simp only [if_neg hr] at h
          obtain ⟨run, nm, ec, rs, hrun, htag, hne, hec, hrs, hd'⟩ :=
            attach_ok_shape t dm E r d' h
          subst hd'
          rw [list_runs_update]
          exact list_runs_register_mem _ _ _ _
            (ensure_ok_mem t c._dataset E none dm hres)
    · rw [hres] at h
      exact absurd h (by simp)
  · intro t c E
    constructor
    · unfold log_mlflow_run_to_fiftyone_dataset
      rcases hres : ensure_experiment_record t c._dataset E none with dm | ⟨e, dm⟩
      · rfl
      · rfl
    · unfold log_mlflow_run_to_fiftyone_dataset
      rcases hres : ensure_experiment_record t c._dataset E none with dm | ⟨e, dm⟩
      · simp
      · rfl
  · intro t rs2 c E
    have hsame : ensure_experiment_record ⟨t.experimentsByName, rs2⟩
        c._dataset E none = ensure_experiment_record t c._dataset E none :=
      rfl
    constructor
    · unfold log_mlflow_run_to_fiftyone_dataset
      rw [hsame]
    · unfold log_mlflow_run_to_fiftyone_dataset
      rw [hsame]
      rcases hres : ensure_experiment_record t c._dataset E none with dm | ⟨e, dm⟩
      · simp
      · rfl
  · intro t c E r d' hr h
    unfold log_mlflow_run_to_fiftyone_dataset at h
    rcases hres : ensure_experiment_record t c._dataset E none with dm | ⟨e, dm⟩
    · rw [hres] at h
      simp only [if_neg hr] at h
      obtain ⟨run, nm, ec, rs, hrun, htag, hne, hec, hrs, hd'⟩ :=
        attach_ok_shape t dm E r d' h
      refine ⟨run, nm, hrun, htag, ?_, ?_⟩
      · subst hd'
        have hrc : ((dm.register_run (_format_run_name nm)
            (_mlflow_run_config dm r run nm)).update_run_config E
              { ec with runs := some (rs ++ [nm]) }).get_run_info
                (_format_run_name nm) =
            some (_mlflow_run_config dm r run nm) := by
          rw [get_run_info_update_ne _ _ _ _ (fun hc => hne hc.symm)]
          exact get_run_info_register_self dm _ _
        exact ⟨_, hrc, rfl⟩
      · subst hd'
        refine ⟨_, rs ++ [nm], get_run_info_update_self _ E _ ec ?_, rfl,
          List.mem_append_right _ (by simp)⟩
        rw [get_run_info_register_ne _ _ _ _ hne]
        exact hec
    · rw [hres] at h
      exact absurd h (by simp)

/-- Witness for C7 on concrete inputs: logging run `"run123"` of
`"exp1"` succeeds and yields the mirrored registry, an omitted run id
leaves just the ensure step, and the successful run attach produced the
`"My_Run"` record linked into `"exp1"`. -/
theorem C7_log_run_entry_point_witness :
    log_mlflow_run_to_fiftyone_dataset tFix ⟨dsWithExp⟩ "exp1"
      (some "run123") = .ok dsLogged ∧
    "exp1" ∈ dsLogged.list_runs ∧
    log_mlflow_run_to_fiftyone_dataset tFix ⟨dsWithExp⟩ "exp1" none =
      ensure_experiment_record tFix dsWithExp "exp1" none ∧
    (¬ ("run123" : String) = "") ∧
    (∃ run nm, tFix.get_run "run123" = some run ∧
      lookupTag run.data.tags "mlflow.runName" = some nm ∧
      (∃ rc, dsLogged.get_run_info (_format_run_name nm) = some rc ∧
        rc.method = some "mlflow_run") ∧
      (∃ ec rs, dsLogged.get_run_info "exp1" = some ec ∧
        ec.runs = some rs ∧ nm ∈ rs)) :=
  ⟨by decide,
    C7_log_run_entry_point.1 tFix ⟨dsWithExp⟩ "exp1" (some "run123") dsLogged
      (by decide),
    (C7_log_run_entry_point.2.1 tFix ⟨dsWithExp⟩ "exp1").1,
    by decide,
    C7_log_run_entry_point.2.2.2 tFix ⟨dsWithExp⟩ "exp1" "run123" dsLogged
      (by decide) (by decide)⟩

end MlflowPlugin
